import Mathlib

/-
Verification of the `cans` library (src/src/cans/__init__.py): the `Maybe`
sum type (`Some` / `Nothing`) with its combinators and Sequence behaviour,
and the memoizing `Lazy` container.

Python exceptions are modelled by the explicit error type `PyErr`; a method
that can raise returns `Except PyErr _`.  Python values that may be the
host `None` are modelled as `Option V` (with `Option.none` playing the role
of `None`).
-/

/-- Errors raised by the library (constructor + message, mirroring the
Python exception class and its message argument). -/
inductive PyErr where
  | typeError : String → PyErr
  | indexError : String → PyErr
  | assertionError : String → PyErr
  | valueError : String → PyErr
deriving DecidableEq, Repr

/-- The `Maybe` sum type.  `Some` holds exactly one value (`_value` field of
the frozen dataclass `Some`), `Nothing` holds nothing. -/
inductive Maybe (T : Type) where
  | Some : T → Maybe T
  | Nothing : Maybe T
deriving DecidableEq, Repr

/-- `Some.is_some` returns `True`; `Nothing.is_some` returns `False`. -/
def Maybe.is_some : Maybe T → Bool
  | .Some _ => true
  | .Nothing => false

/-- `Some.is_nothing` returns `False`; `Nothing.is_nothing` returns `True`. -/
def Maybe.is_nothing : Maybe T → Bool
  | .Some _ => false
  | .Nothing => true

/-- `Some.__bool__` returns `True`; `Nothing.__bool__` returns `False`. -/
def Maybe.toBool : Maybe T → Bool
  | .Some _ => true
  | .Nothing => false

/-- `Some.unwrap` returns `self._value`; `Nothing.unwrap` raises
`TypeError("Cannot unwrap an empty `Maybe`.")`. -/
def Maybe.unwrap : Maybe T → Except PyErr T
  | .Some v => .ok v
  | .Nothing => .error (.typeError "Cannot unwrap an empty `Maybe`.")

/-- `Some.unwrap_or` returns `self._value`; `Nothing.unwrap_or` returns the
given default. -/
def Maybe.unwrap_or (m : Maybe T) (d : T) : T :=
  match m with
  | .Some v => v
  | .Nothing => d

/-- `Some.and_` returns `_other`; `Nothing.and_` returns `_NOTHING`. -/
def Maybe.and_ (m o : Maybe T) : Maybe T :=
  match m with
  | .Some _ => o
  | .Nothing => .Nothing

/-- `Some.or_` returns `self`; `Nothing.or_` returns `_other`. -/
def Maybe.or_ (m o : Maybe T) : Maybe T :=
  match m with
  | .Some _ => m
  | .Nothing => o

/-- `Maybe.from_optional(_v)` returns `_NOTHING if _v is None else Some(_v)`.
Host values that may be `None` are modelled as `Option V`; the wrapped value
is `_v` itself (no transformation). -/
def Maybe.from_optional (v : Option V) : Maybe (Option V) :=
  match v with
  | none => .Nothing
  | some _ => .Some v

/-- `Some.as_optional` returns `self._value`; `Nothing.as_optional` returns
`None`. -/
def Maybe.as_optional (m : Maybe (Option V)) : Option V :=
  match m with
  | .Some x => x
  | .Nothing => none

/-- The ways client code can try to obtain a `Maybe`: calling the abstract
base class `Maybe(...)` directly (its `__init__`), the `Some(v)` and
`Nothing()` dataclass constructors, or `Maybe.from_optional(v)`. -/
inductive MaybeCtorCall (V : Type) where
  | baseInit : MaybeCtorCall V
  | someCtor : Option V → MaybeCtorCall V
  | nothingCtor : MaybeCtorCall V
  | fromOptional : Option V → MaybeCtorCall V

/-- Result of each construction attempt: `Maybe.__init__` raises
`TypeError`; the `Some` / `Nothing` dataclass constructors succeed
(the generated dataclass `__init__` overrides the base one); and
`from_optional` dispatches on `None`. -/
def constructMaybe : MaybeCtorCall V → Except PyErr (Maybe (Option V))
  | .baseInit => .error (.typeError
      "Can't instantiate Maybe directly. Use the factory methods `of` and `from_optional` instead.")
  | .someCtor v => .ok (.Some v)
  | .nothingCtor => .ok .Nothing
  | .fromOptional v => .ok (Maybe.from_optional v)

/-- A Python `slice(start, stop, step)` object; `none` models an omitted
(`None`) bound. -/
structure Slice where
  start : Option Int
  stop : Option Int
  step : Option Int
deriving DecidableEq, Repr

/-- `slice.indices(length)` as in CPython (`PySlice_Unpack` +
`PySlice_AdjustIndices`): resolves defaults and clamps `start`/`stop` into
range for a sequence of the given length; raises `ValueError` on step 0. -/
def Slice.indices (sl : Slice) (length : Nat) : Except PyErr (Int × Int × Int) :=
  match sl.step with
  | some 0 => .error (.valueError "slice step cannot be zero")
  | st =>
    let step : Int := st.getD 1
    let L : Int := length
    let lower : Int := if step < 0 then -1 else 0
    let upper : Int := if step < 0 then L - 1 else L
    let start : Int :=
      match sl.start with
      | none => if step < 0 then upper else lower
      | some s => if s < 0 then max (s + L) lower else min s upper
    let stop : Int :=
      match sl.stop with
      | none => if step < 0 then lower else upper
      | some s => if s < 0 then max (s + L) lower else min s upper
    .ok (start, stop, step)

/-- Number of indices selected by resolved slice bounds, as computed by
CPython's `PySlice_AdjustIndices`. -/
def sliceLength (start stop step : Int) : Nat :=
  if step < 0 then
    if stop < start then ((start - stop - 1) / (-step) + 1).toNat else 0
  else
    if start < stop then ((stop - start - 1) / step + 1).toNat else 0

/-- Reference semantics for C2's comparison: standard slicing of a Python
list (the elements at indices `start + k*step` for `k < sliceLength`). -/
def listSlice (l : List T) (sl : Slice) : Except PyErr (List T) :=
  match sl.indices l.length with
  | .error e => .error e
  | .ok (start, stop, step) =>
      .ok ((List.range (sliceLength start stop step)).filterMap
        (fun k => l.get? (start + step * (k : Int)).toNat))

/-- `Some.__getitem__` / `Nothing.__getitem__` on a slice argument:
`Some` returns `self` when `_i.indices(1)[:2] == (0, 1)` and `_NOTHING`
otherwise; `Nothing` returns `_NOTHING` unconditionally. -/
def Maybe.getitem_slice (m : Maybe T) (sl : Slice) : Except PyErr (Maybe T) :=
  match m with
  | .Some v =>
    match sl.indices 1 with
    | .error e => .error e
    | .ok (start, stop, _) =>
        .ok (if start = 0 ∧ stop = 1 then Maybe.Some v else Maybe.Nothing)
  | .Nothing => .ok Maybe.Nothing

/-- `Some.__getitem__` / `Nothing.__getitem__` on an integer argument:
`Some` returns `self._value` at index 0 and raises `IndexError` otherwise;
`Nothing` always raises `IndexError`. -/
def Maybe.getitem_int (m : Maybe T) (i : Int) : Except PyErr T :=
  match m with
  | .Some v =>
      if i = 0 then .ok v
      else .error (.indexError "Only index 0 can be retrieved from container.")
  | .Nothing => .error (.indexError "No items in this container.")

/-- State of a `Lazy` instance: `result` models the `_result` slot
(initialised to `_NOTHING` by `Lazy.__init__`).  The `_evaluator`
attribute is modelled as the external function handed to `Lazy.call`. -/
structure Lazy (T : Type) where
  result : Maybe T
deriving DecidableEq, Repr

/-- `Lazy.__init__` sets `self._result = _NOTHING`. -/
def Lazy.init : Lazy T := ⟨Maybe.Nothing⟩

/-- `Lazy.is_evaluated` returns `self._result.is_some()`. -/
def Lazy.is_evaluated (l : Lazy T) : Bool :=
  l.result.is_some

/-- `Lazy.__call__` (a.k.a. `force()` / `unwrap()`):
`if not self._result: self._result = Some(self._evaluator())` followed by
`return self._result.unwrap()`.  The evaluator is modelled as a function of
the number of evaluator invocations made so far (threaded through as `n`,
so an invocation is visible as `n + 1`); if the evaluator fails, the error
propagates and `_result` is left unchanged. -/
def Lazy.call (ev : Nat → Except PyErr T) (l : Lazy T) (n : Nat) :
    Lazy T × Nat × Except PyErr T :=
  if Maybe.toBool l.result then (l, n, Maybe.unwrap l.result)
  else
    match ev n with
    | .ok v => (⟨Maybe.Some v⟩, n + 1, Maybe.unwrap (Maybe.Some v))
    | .error e => (l, n + 1, .error e)

/-- Evaluator-invocation events for the nested-Lazy scenario of `flatten()`:
the inner lazy's evaluator (`evalA`) and the outer one's (`evalB`). -/
inductive Ev where
  | evalA : Ev
  | evalB : Ev
deriving DecidableEq, Repr

/-- World for `Lazy.flatten`: the caches of the inner lazy `a` (whose
evaluator produces a value of `T`) and of the outer lazy `b` (whose
evaluator produces the inner lazy `a`, represented by `Unit`), plus the
log of evaluator invocations so far (oldest first). -/
structure FlatW (T : Type) where
  aRes : Maybe T
  bRes : Maybe Unit
  log : List Ev
deriving DecidableEq, Repr

/-- A freshly constructed pair of nested lazies: nothing evaluated yet. -/
def flatW0 : FlatW T := ⟨Maybe.Nothing, Maybe.Nothing, []⟩

/-- `a.__call__()`: `Lazy.call` specialised to the inner lazy, whose
evaluator returns `x` and whose invocation is logged as `evalA`. -/
def forceA (x : T) (w : FlatW T) : T × FlatW T :=
  match w.aRes with
  | .Some v => (v, w)
  | .Nothing => (x, ⟨Maybe.Some x, w.bRes, w.log ++ [Ev.evalA]⟩)

/-- `b.__call__()`: `Lazy.call` specialised to the outer lazy, whose
evaluator returns the inner lazy `a` (so the cached value is the reference
to `a`, modelled as `()`), logged as `evalB`. -/
def forceB (w : FlatW T) : FlatW T :=
  match w.bRes with
  | .Some _ => w
  | .Nothing => ⟨w.aRes, Maybe.Some (), w.log ++ [Ev.evalB]⟩

/-- What `b.flatten()` returns: either (an alias of) the inner lazy `a`, or
a fresh `Lazy` cell with its own cache. -/
inductive CState (T : Type) where
  | aliasA : CState T
  | fresh : Maybe T → CState T
deriving DecidableEq, Repr

/-- `Lazy.flatten`: `return self._result.unwrap_or(Lazy(lambda: self()()))` —
if the outer cache already holds the inner lazy, `unwrap_or` returns that
retained inner lazy itself; otherwise a fresh unevaluated `Lazy` whose
evaluator is `self()()`. -/
def lazyFlatten (w : FlatW T) : CState T :=
  match w.bRes with
  | .Some _ => .aliasA
  | .Nothing => .fresh Maybe.Nothing

/-- Forcing the result of `b.flatten()`.  An alias of `a` forces `a`.  A
fresh cell follows `Lazy.__call__`: if its own cache is filled, return it;
otherwise run the evaluator `lambda: self()()` — force `b` (which yields
the inner lazy `a`) and then force `a` — and memoize the result. -/
def forceC (x : T) (c : CState T) (w : FlatW T) : T × CState T × FlatW T :=
  match c with
  | .aliasA =>
      let r := forceA x w
      (r.1, .aliasA, r.2)
  | .fresh cache =>
      match cache with
      | .Some v => (v, .fresh (Maybe.Some v), w)
      | .Nothing =>
          let w1 := forceB w
          let r := forceA x w1
          (r.1, .fresh (Maybe.Some r.1), r.2)

/-- 64-bit modulus for CPython hash arithmetic. -/
def M64 : Nat := 2 ^ 64

/-- Rotate a 64-bit value left by 31 bits (`_PyHASH_XXROTATE`). -/
def rotl31 (x : Nat) : Nat :=
  ((x % M64) * 2 ^ 31) % M64 + (x % M64) / 2 ^ 33

/-- One accumulation step of CPython's tuple hash (xxHash-style). -/
def tupleHashStep (acc lane : Nat) : Nat :=
  (rotl31 ((acc + lane * 14029467366897019727) % M64) * 11400714785074694791) % M64

/-- Fold the tuple-hash accumulator over the item hashes. -/
def tupleHashAux : List Nat → Nat → Nat
  | [], acc => acc
  | h :: t, acc => tupleHashAux t (tupleHashStep acc h)

/-- CPython's `hash` of a tuple whose items have the given hashes. -/
def tupleHash (l : List Nat) : Nat :=
  let acc := tupleHashAux l (2870177450012600261 % M64)
  let acc2 := (acc + (l.length ^^^ (2870177450012600261 ^^^ 3527539))) % M64
  if acc2 = M64 - 1 then 1546275796 else acc2

/-- The dataclass-generated `__eq__`: values of the same variant compare
their fields with the host equality `eqV`; a `Some` never equals a
`Nothing` (different classes compare unequal). -/
def maybeEq (eqV : T → T → Bool) : Maybe T → Maybe T → Bool
  | .Some a, .Some b => eqV a b
  | .Nothing, .Nothing => true
  | _, _ => false

/-- The dataclass-generated `__hash__`: `hash((self._value,))` for `Some`
and `hash(())` for `Nothing`, with `hashV` the hash of the contained
value. -/
def maybeHash (hashV : T → Nat) : Maybe T → Nat
  | .Some v => tupleHash [hashV v]
  | .Nothing => tupleHash []

/-- C3: `unwrap()` on `Empty` always fails with the dedicated illegal-unwrap
signal (realised in the code as `TypeError("Cannot unwrap an empty
`Maybe`.")`), and `unwrap()` on `Present(v)` returns `v` without failing. -/
theorem unwrap_present_ok_empty_fails (T : Type) (v : T) :
    Maybe.unwrap (Maybe.Some v) = Except.ok v ∧
    Maybe.unwrap (Maybe.Nothing : Maybe T) =
      Except.error (PyErr.typeError "Cannot unwrap an empty `Maybe`.") := by
  exact ⟨rfl, rfl⟩

theorem unwrap_present_ok_empty_fails_witness :
    Maybe.unwrap (Maybe.Some 6) = Except.ok 6 ∧
    Maybe.unwrap (Maybe.Nothing : Maybe Nat) =
      Except.error (PyErr.typeError "Cannot unwrap an empty `Maybe`.") :=
  unwrap_present_ok_empty_fails Nat 6

/-- C6: the `and_` / `or_` truth table: `Some(a) & Some(b) = Some(b)`,
`Some(a) & Nothing = Nothing`, `Nothing & m = Nothing`,
`Some(a) | m = Some(a)`, `Nothing | Some(b) = Some(b)`,
`Nothing | Nothing = Nothing`. -/
theorem and_or_truth_table (T : Type) (a b : T) (m : Maybe T) :
    Maybe.and_ (Maybe.Some a) (Maybe.Some b) = Maybe.Some b ∧
    Maybe.and_ (Maybe.Some a) Maybe.Nothing = Maybe.Nothing ∧
    Maybe.and_ Maybe.Nothing m = Maybe.Nothing ∧
    Maybe.or_ (Maybe.Some a) m = Maybe.Some a ∧
    Maybe.or_ Maybe.Nothing (Maybe.Some b) = Maybe.Some b ∧
    Maybe.or_ (Maybe.Nothing : Maybe T) Maybe.Nothing = Maybe.Nothing := by
  exact ⟨rfl, rfl, rfl, rfl, rfl, rfl⟩

theorem and_or_truth_table_witness :
    Maybe.and_ (Maybe.Some 1) (Maybe.Some 2) = Maybe.Some 2 ∧
    Maybe.and_ (Maybe.Some 1) Maybe.Nothing = Maybe.Nothing ∧
    Maybe.and_ Maybe.Nothing (Maybe.Some 3) = Maybe.Nothing ∧
    Maybe.or_ (Maybe.Some 1) (Maybe.Some 3) = Maybe.Some 1 ∧
    Maybe.or_ Maybe.Nothing (Maybe.Some 2) = Maybe.Some 2 ∧
    Maybe.or_ (Maybe.Nothing : Maybe Nat) Maybe.Nothing = Maybe.Nothing :=
  and_or_truth_table Nat 1 2 (Maybe.Some 3)

/-- C10: truthiness depends only on the variant: `bool(Some(v))` is true for
every `v` (including falsy values), `bool(Nothing())` is false, and
truthiness coincides with `is_some()`. -/
theorem truthiness_is_variant (T : Type) (v : T) (m : Maybe T) :
    Maybe.toBool (Maybe.Some v) = true ∧
    Maybe.toBool (Maybe.Nothing : Maybe T) = false ∧
    Maybe.toBool m = Maybe.is_some m := by
  refine ⟨rfl, rfl, ?_⟩
  cases m <;> rfl

/-- C9: instantiating the abstract `Maybe` base directly fails with
`TypeError`, and every `Maybe` value that exists is one of the two variants
`Some` / `Nothing`. -/
theorem maybe_base_not_instantiable (V : Type) (m : Maybe (Option V)) :
    constructMaybe (V := V) MaybeCtorCall.baseInit = Except.error (PyErr.typeError
      "Can't instantiate Maybe directly. Use the factory methods `of` and `from_optional` instead.")
    ∧ ((∃ v, m = Maybe.Some v) ∨ m = Maybe.Nothing) := by
  refine ⟨rfl, ?_⟩
  cases m with
  | Some v => exact Or.inl ⟨v, rfl⟩
  | Nothing => exact Or.inr rfl

theorem maybe_base_not_instantiable_witness :
    constructMaybe (V := Nat) MaybeCtorCall.baseInit = Except.error (PyErr.typeError
      "Can't instantiate Maybe directly. Use the factory methods `of` and `from_optional` instead.")
    ∧ ((∃ v, Maybe.Some (some 1) = Maybe.Some v) ∨
        (Maybe.Some (some 1) : Maybe (Option Nat)) = Maybe.Nothing) :=
  maybe_base_not_instantiable Nat (Maybe.Some (some 1))

/-- C1 counterexample: the round trip fails on `Some(None)`:
`as_optional` erases the wrapper, so `from_optional(Some(None).as_optional())`
is `Nothing()`, which differs from `Some(None)`. -/
theorem roundtrip_fails_on_present_none :
    Maybe.from_optional (Maybe.as_optional (Maybe.Some (none : Option Nat))) =
      Maybe.Nothing
    ∧ Maybe.Some (none : Option Nat) ≠ Maybe.Nothing := by
  exact ⟨rfl, by decide⟩

/-- C1 amended: for every `Maybe` other than `Some(None)` — that is, for
`Nothing()` and for `Some(v)` with `v` not the host `None` — the round trip
`from_optional(as_optional(m)) == m` holds. -/
theorem roundtrip_except_present_none (V : Type) (m : Maybe (Option V))
    (h : m ≠ Maybe.Some none) :
    Maybe.from_optional (Maybe.as_optional m) = m := by
  cases m with
  | Some x =>
    cases x with
    | none => exact absurd rfl h
    | some a => rfl
  | Nothing => rfl

theorem roundtrip_except_present_none_witness :
    Maybe.from_optional (Maybe.as_optional (Maybe.Some (some 3))) =
      (Maybe.Some (some 3) : Maybe (Option Nat)) :=
  roundtrip_except_present_none Nat (Maybe.Some (some 3)) (by decide)

theorem truthiness_is_variant_witness :
    Maybe.toBool (Maybe.Some false) = true ∧
    Maybe.toBool (Maybe.Nothing : Maybe Bool) = false ∧
    Maybe.toBool (Maybe.Some false) = Maybe.is_some (Maybe.Some false) :=
  truthiness_is_variant Bool false (Maybe.Some false)

/-- C2: indexed access. Integer indexing behaves as claimed (index 0 on
`Some` returns the value, everything else raises `IndexError`), and the
spec's positive slice examples hold; but for negative-step slices the code
diverges from 1-element-list slicing: `Some(7)[::-1]` returns `Nothing()`
while `[7][::-1] == [7]` would require `Some(7)` — the `(0, 1)` check in
`Some.__getitem__` can never match a negative step's resolved bounds. -/
theorem getitem_negstep_diverges_from_list_semantics :
    Maybe.getitem_int (Maybe.Some 6) 0 = Except.ok 6
    ∧ Maybe.getitem_int (Maybe.Some 4) 1 =
        Except.error (PyErr.indexError "Only index 0 can be retrieved from container.")
    ∧ Maybe.getitem_int (Maybe.Nothing : Maybe Nat) 0 =
        Except.error (PyErr.indexError "No items in this container.")
    ∧ Maybe.getitem_slice (Maybe.Some 8) ⟨none, some 9, some 4⟩ =
        Except.ok (Maybe.Some 8)
    ∧ Maybe.getitem_slice (Maybe.Some 7) ⟨some 2, some 9, some 4⟩ =
        Except.ok Maybe.Nothing
    ∧ Maybe.getitem_slice (Maybe.Nothing : Maybe Nat) ⟨none, none, some (-1)⟩ =
        Except.ok Maybe.Nothing
    ∧ Maybe.getitem_slice (Maybe.Some 7) ⟨none, none, some (-1)⟩ =
        Except.ok Maybe.Nothing
    ∧ listSlice [7] ⟨none, none, some (-1)⟩ = Except.ok [7] := by
  refine ⟨rfl, rfl, rfl, ?_, ?_, rfl, ?_, ?_⟩ <;> rfl

/-- C4: a fresh `Lazy` is not evaluated; the first successful `force()`
invokes the evaluator (count goes from `n` to `n + 1`), stores the result
and returns it; once the cache is `Some`, every later `force()` — under any
evaluator — returns the cached value with the invocation count unchanged;
and the cache being `Some` makes `is_evaluated()` true. -/
theorem lazy_memoizes (T : Type) (ev : Nat → Except PyErr T) (v : T) (n : Nat)
    (h : ev n = Except.ok v) :
    Lazy.is_evaluated (Lazy.init : Lazy T) = false
    ∧ Lazy.call ev Lazy.init n = (⟨Maybe.Some v⟩, n + 1, Except.ok v)
    ∧ (∀ (ev2 : Nat → Except PyErr T) (w : T) (m : Nat),
        Lazy.call ev2 ⟨Maybe.Some w⟩ m = (⟨Maybe.Some w⟩, m, Except.ok w))
    ∧ Lazy.is_evaluated (⟨Maybe.Some v⟩ : Lazy T) = true := by
  refine ⟨rfl, ?_, ?_, rfl⟩
  · simp [Lazy.call, Lazy.init, Maybe.toBool, Maybe.unwrap, h]
  · intro ev2 w m
    rfl

theorem lazy_memoizes_witness :
    Lazy.is_evaluated (Lazy.init : Lazy Nat) = false
    ∧ Lazy.call (fun _ => Except.ok 42) Lazy.init 0 = (⟨Maybe.Some 42⟩, 1, Except.ok 42)
    ∧ Lazy.call (fun _ => Except.ok 7) ⟨Maybe.Some 42⟩ 1 = (⟨Maybe.Some 42⟩, 1, Except.ok 42)
    ∧ Lazy.is_evaluated (⟨Maybe.Some 42⟩ : Lazy Nat) = true := by
  have h := lazy_memoizes Nat (fun _ => Except.ok 42) 42 0 rfl
  exact ⟨h.1, h.2.1, h.2.2.1 (fun _ => Except.ok 7) 42 1, h.2.2.2⟩

/-- C5: if the evaluator fails during `force()`, the same error propagates
verbatim, the cache stays `Nothing` (the state is unchanged) although the
evaluator was invoked (`n + 1`); consequently a later `force()` runs the
evaluator again (count reaches `n + 2`) and can succeed. -/
theorem lazy_error_not_memoized (T : Type) (ev : Nat → Except PyErr T)
    (e : PyErr) (n : Nat) (h : ev n = Except.error e) :
    Lazy.call ev (Lazy.init : Lazy T) n = (Lazy.init, n + 1, Except.error e)
    ∧ (∀ (ev2 : Nat → Except PyErr T) (v : T), ev2 (n + 1) = Except.ok v →
        Lazy.call ev2 (Lazy.init : Lazy T) (n + 1) =
          (⟨Maybe.Some v⟩, n + 2, Except.ok v)) := by
  constructor
  · simp [Lazy.call, Lazy.init, Maybe.toBool, h]
  · intro ev2 v h2
    simp [Lazy.call, Lazy.init, Maybe.toBool, Maybe.unwrap, h2]

theorem lazy_error_not_memoized_witness :
    Lazy.call (fun _ => Except.error (PyErr.valueError "boom"))
        (Lazy.init : Lazy Nat) 0 =
      (Lazy.init, 1, Except.error (PyErr.valueError "boom"))
    ∧ Lazy.call (fun _ => Except.ok 5) (Lazy.init : Lazy Nat) 1 =
      (⟨Maybe.Some 5⟩, 2, Except.ok 5) := by
  have h := lazy_error_not_memoized Nat
    (fun _ => Except.error (PyErr.valueError "boom")) (PyErr.valueError "boom") 0 rfl
  exact ⟨h.1, h.2 (fun _ => Except.ok 5) 5 rfl⟩

/-- C7: forcing the result of `b.flatten()` leaves each of the outer and
inner evaluators invoked exactly once, in the order outer (`evalB`) then
inner (`evalA`) among the invocations it triggers, in all four pre-forcing
scenarios; a second forcing changes nothing; and when the outer was
already forced, `flatten()` returns the retained inner lazy itself, so
forcing it only forces the inner. -/
theorem lazy_flatten_forces_outer_then_inner_once (T : Type) (x : T) :
    (forceC x (lazyFlatten (flatW0 : FlatW T)) flatW0 =
      (x, CState.fresh (Maybe.Some x),
        ⟨Maybe.Some x, Maybe.Some (), [Ev.evalB, Ev.evalA]⟩))
    ∧ (forceC x (CState.fresh (Maybe.Some x))
        ⟨Maybe.Some x, Maybe.Some (), [Ev.evalB, Ev.evalA]⟩ =
      (x, CState.fresh (Maybe.Some x),
        ⟨Maybe.Some x, Maybe.Some (), [Ev.evalB, Ev.evalA]⟩))
    ∧ ((forceA x (flatW0 : FlatW T)).2 = ⟨Maybe.Some x, Maybe.Nothing, [Ev.evalA]⟩)
    ∧ (forceC x (lazyFlatten (⟨Maybe.Some x, Maybe.Nothing, [Ev.evalA]⟩ : FlatW T))
        ⟨Maybe.Some x, Maybe.Nothing, [Ev.evalA]⟩ =
      (x, CState.fresh (Maybe.Some x),
        ⟨Maybe.Some x, Maybe.Some (), [Ev.evalA, Ev.evalB]⟩))
    ∧ (forceB (flatW0 : FlatW T) = ⟨Maybe.Nothing, Maybe.Some (), [Ev.evalB]⟩)
    ∧ (lazyFlatten (⟨Maybe.Nothing, Maybe.Some (), [Ev.evalB]⟩ : FlatW T) =
        CState.aliasA)
    ∧ (forceC x CState.aliasA (⟨Maybe.Nothing, Maybe.Some (), [Ev.evalB]⟩ : FlatW T) =
      (x, CState.aliasA, ⟨Maybe.Some x, Maybe.Some (), [Ev.evalB, Ev.evalA]⟩))
    ∧ (forceC x (lazyFlatten (⟨Maybe.Some x, Maybe.Some (), [Ev.evalA, Ev.evalB]⟩ : FlatW T))
        ⟨Maybe.Some x, Maybe.Some (), [Ev.evalA, Ev.evalB]⟩ =
      (x, CState.aliasA, ⟨Maybe.Some x, Maybe.Some (), [Ev.evalA, Ev.evalB]⟩)) := by
  exact ⟨rfl, rfl, rfl, rfl, rfl, rfl, rfl, rfl⟩

theorem lazy_flatten_forces_outer_then_inner_once_witness :
    (forceC 0 (lazyFlatten (flatW0 : FlatW Nat)) flatW0 =
      (0, CState.fresh (Maybe.Some 0),
        ⟨Maybe.Some 0, Maybe.Some (), [Ev.evalB, Ev.evalA]⟩)) :=
  (lazy_flatten_forces_outer_then_inner_once Nat 0).1

/-- C8: the dataclass equality is structural — two `Maybe`s are equal iff
both are `Nothing` or both are `Some` of host-equal values (a `Some` never
equals a `Nothing`) — and when the host hash respects host equality, equal
`Maybe`s have identical hashes. -/
theorem maybe_eq_structural_hash_consistent (T : Type) (eqV : T → T → Bool)
    (hashV : T → Nat) (hh : ∀ a b, eqV a b = true → hashV a = hashV b)
    (m1 m2 : Maybe T) :
    (maybeEq eqV m1 m2 = true ↔
      (m1 = Maybe.Nothing ∧ m2 = Maybe.Nothing) ∨
      (∃ a b, m1 = Maybe.Some a ∧ m2 = Maybe.Some b ∧ eqV a b = true))
    ∧ (maybeEq eqV m1 m2 = true → maybeHash hashV m1 = maybeHash hashV m2) := by
  constructor
  · cases m1 <;> cases m2 <;> simp [maybeEq]
  · intro he
    cases m1 with
    | Some a =>
      cases m2 with
      | Some b =>
        simp only [maybeEq] at he
        simp only [maybeHash, hh a b he]
      | Nothing => simp [maybeEq] at he
    | Nothing =>
      cases m2 with
      | Some b => simp [maybeEq] at he
      | Nothing => rfl

theorem maybe_eq_structural_hash_consistent_witness :
    ((maybeEq (fun a b : Nat => decide (a = b)) (Maybe.Some 2) (Maybe.Some 2) = true ↔
      ((Maybe.Some 2 : Maybe Nat) = Maybe.Nothing ∧
        (Maybe.Some 2 : Maybe Nat) = Maybe.Nothing) ∨
      (∃ a b, (Maybe.Some 2 : Maybe Nat) = Maybe.Some a ∧
        (Maybe.Some 2 : Maybe Nat) = Maybe.Some b ∧ decide (a = b) = true)))
    ∧ (maybeEq (fun a b : Nat => decide (a = b)) (Maybe.Some 2) (Maybe.Some 2) = true →
        maybeHash id (Maybe.Some 2) = maybeHash id (Maybe.Some 2)) :=
  maybe_eq_structural_hash_consistent Nat (fun a b => decide (a = b)) id
    (fun _ _ h => congrArg id (of_decide_eq_true h))
    (Maybe.Some 2) (Maybe.Some 2)
